import Mathlib

/-!
Verification development for the `wtf` terminal assistant's agent
orchestration and permission gating subsystem.

The development shallowly embeds, in Lean:

* the pattern matchers and the permission decision engine
  (`wtf/core/permissions.py`; that module's implementation is not present
  in the source tree, only its test-suite and callers, so those
  definitions are modelled from the specification, as marked on each);
* the command extractor (`wtf/ai/response_parser.py`);
* the conversation state machine (`wtf/conversation/state.py`);
* the agent tools and their result dictionaries (`wtf/ai/tools.py`).

External effects (process execution, the filesystem, network calls,
persisted configuration) are modelled as oracle inputs: each embedded
function receives the outcome of its external interactions as an
explicit argument and computes the same structured result the Python
code would build from that outcome.  Python dictionaries become
association lists of `Value`s, Python exceptions become explicit
`raised`/`Except` branches.
-/

namespace Wtf

/-! ## Basic string helpers

Python string operations (`str.strip`, `str.split`, `in`, `startswith`)
are embedded as structurally recursive functions on `List Char` so that
every concrete evaluation reduces by `rfl`/`decide`.
-/

/-- Whitespace test matching Python `str.strip`/`str.split` defaults on
the characters that occur in terminal commands. -/
def wsChar (c : Char) : Bool :=
  c = ' ' || c = '\t' || c = '\n' || c = '\r'

/-- Strip leading and trailing whitespace, as Python `str.strip()`. -/
def trimChars (l : List Char) : List Char :=
  ((l.dropWhile wsChar).reverse.dropWhile wsChar).reverse

/-- `str.strip()` on a `String`. -/
def strTrim (s : String) : String :=
  ⟨trimChars s.toList⟩

/-- Split at every character satisfying `p`, keeping empty segments,
as Python `str.split(sep)` does for a single separator. -/
def splitPredL (p : Char → Bool) : List Char → List (List Char)
  | [] => [[]]
  | c :: cs =>
    let r := splitPredL p cs
    if p c then [] :: r
    else
      match r with
      | h :: t => (c :: h) :: t
      | [] => [[c]]

/-- Python `str.split('\n')`. -/
def splitNl (l : List Char) : List (List Char) :=
  splitPredL (fun c => c = '\n') l

/-- Python `str.split()` with no argument: split on whitespace runs and
drop empty segments. -/
def splitWsL (l : List Char) : List (List Char) :=
  (splitPredL wsChar l).filter (fun t => t ≠ [])

/-- The whitespace-separated tokens of a string. -/
def tokensOf (s : String) : List (List Char) :=
  splitWsL s.toList

/-- Does `needle` occur as a contiguous run inside `hay`? -/
def containsSubL (needle : List Char) : List Char → Bool
  | [] => needle.isEmpty
  | c :: cs => needle.isPrefixOf (c :: cs) || containsSubL needle cs

/-- Python `needle in hay` (substring containment). -/
def containsSub (needle hay : String) : Bool :=
  containsSubL needle.toList hay.toList

/-- Find the first occurrence of `needle` in the list; return the part
before it and the part after it.  `none` when `needle` does not occur
(Python `str.find` returning `-1`). -/
def splitFirst (needle : List Char) : List Char → Option (List Char × List Char)
  | [] => if needle.isEmpty then some ([], []) else none
  | c :: cs =>
    if needle.isPrefixOf (c :: cs) then some ([], (c :: cs).drop needle.length)
    else
      match splitFirst needle cs with
      | some (pre, post) => some (c :: pre, post)
      | none => none

/-! ## Pattern matchers and the permission decision engine

Modelled from the spec: the module `wtf/core/permissions.py` is not
present under the source tree (only `tests/test_permissions.py` and the
tool layer refer to it), so `is_command_allowed`, `is_command_denied`,
`is_command_chained`, `has_output_redirection`,
`is_safe_readonly_command` and `should_auto_execute` below follow the
specification's §4.1/§4.2 wording.
-/

/-- Modelled from the spec: a pattern matches a command iff the
whitespace-trimmed command starts with the pattern, "matched on a
normalized-whitespace basis so that extra flags after the pattern do not
prevent a match, but the pattern must align on word boundaries": the
pattern's whitespace tokens are a prefix of the command's whitespace
tokens. -/
def matchesPattern (pattern cmd : String) : Bool :=
  (tokensOf (strTrim pattern)).isPrefixOf (tokensOf (strTrim cmd))

/-- Modelled from the spec: true iff `cmd` starts with any pattern of
the allowlist on whole-token word boundaries. -/
def is_command_allowed (cmd : String) (allowlist : List String) : Bool :=
  allowlist.any (fun p => matchesPattern p cmd)

/-- Modelled from the spec: true iff `cmd` starts with any pattern of
the denylist on whole-token word boundaries. -/
def is_command_denied (cmd : String) (denylist : List String) : Bool :=
  denylist.any (fun p => matchesPattern p cmd)

/-- Modelled from the spec: true if the command contains any shell
metacharacter sequence introducing a second logical command or a
substitution. -/
def is_command_chained (cmd : String) : Bool :=
  containsSub "&&" cmd || containsSub "||" cmd || containsSub ";" cmd ||
  containsSub "|" cmd || containsSub "`" cmd || containsSub "$(" cmd

/-- Modelled from the spec: true if `>` appears in the raw command text
(the source's conservative substring check; `>` also covers `>>`). -/
def has_output_redirection (cmd : String) : Bool :=
  containsSub ">" cmd

/-- Modelled from the spec: the fixed, closed allow-set of inherently
non-mutating commands (status/inspection tools). -/
def SAFE_READONLY_PATTERNS : List String :=
  ["git status", "git log", "git diff", "git branch", "ls", "cat", "pwd",
   "which", "command -v", "echo", "head", "tail", "file", "stat", "du",
   "df", "env", "date", "whoami", "uname"]

/-- Modelled from the spec: safe read-only iff the command matches the
fixed allow-set and is neither chained nor redirecting output. -/
def is_safe_readonly_command (cmd : String) : Bool :=
  SAFE_READONLY_PATTERNS.any (fun p => matchesPattern p cmd) &&
  !is_command_chained cmd && !has_output_redirection cmd

/-- The `auto`/`ask`/`deny` verdict of the permission decision engine. -/
inductive Verdict
  | auto
  | ask
  | deny
deriving DecidableEq, Repr

/-- The configuration bits the permission engine reads
(`behavior.auto_allow_readonly`). -/
structure Config where
  auto_allow_readonly : Bool := true
deriving DecidableEq, Repr

/-- Modelled from the spec: the permission decision engine.  Order of
checks: denylist first, then chaining, then the read-only fast path,
then the allowlist, defaulting to `ask`. -/
def should_auto_execute (cmd : String) (allowlist denylist : List String)
    (config : Config) : Verdict :=
  if is_command_denied cmd denylist then .deny
  else if is_command_chained cmd then .ask
  else if config.auto_allow_readonly && is_safe_readonly_command cmd then .auto
  else if is_command_allowed cmd allowlist then .auto
  else .ask

/-! ## Command extractor (`wtf/ai/response_parser.py`)

`extract_commands` scans fenced ```bash/```sh code blocks and bare
`$ `-prefixed lines, derives explanations from the preceding text and
suggests an allowlist pattern per command.  The regular-expression scans
of the source are embedded as explicit left-to-right scanners over the
character list.
-/

/-- A parsed command entry: the dict
`{'command': ..., 'explanation': ..., 'allowlist_pattern': ...}`. -/
structure CommandEntry where
  command : String
  explanation : String
  allowlist_pattern : String
deriving DecidableEq, Repr

/-- The opener of a fenced shell code block at the current position:
the regex alternative `(?:bash|sh)` after three backticks, followed by a
newline.  Returns the opener's length. -/
def blockOpenerLen (l : List Char) : Option Nat :=
  if ("```bash\n".toList).isPrefixOf l then some 8
  else if ("```sh\n".toList).isPrefixOf l then some 6
  else none

/-- Left-to-right scan for non-overlapping matches of the code-block
regex; the lazy group takes everything up to the earliest closing
newline-plus-fence.  `fuel` bounds the scan (each step advances at least
one character, so `l.length` suffices). -/
def scanBlocksAux : Nat → List Char → List (List Char)
  | 0, _ => []
  | _, [] => []
  | fuel + 1, l =>
    match blockOpenerLen l with
    | some n =>
      match splitFirst ("\n```".toList) (l.drop n) with
      | some (content, rest) => content :: scanBlocksAux fuel rest
      | none => scanBlocksAux fuel (l.drop 1)
    | none => scanBlocksAux fuel (l.drop 1)

/-- All fenced ```bash/```sh block contents of the text, in order. -/
def scanBlocks (l : List Char) : List (List Char) :=
  scanBlocksAux l.length l

/-- One line of a code block: strip it, skip empty lines and `#`
comments, strip a leading `$ ` prompt marker, and keep the result when
non-empty. -/
def processBlockLine (line : List Char) : Option (List Char) :=
  let l := trimChars line
  match l with
  | [] => none
  | '#' :: _ => none
  | _ =>
    let l2 := if ['$', ' '].isPrefixOf l then l.drop 2 else l
    if l2.isEmpty then none else some l2

/-- The commands of one code block: strip the block, split into lines,
process each line. -/
def blockCommands (content : List Char) : List String :=
  ((splitNl (trimChars content)).filterMap processBlockLine).map List.asString

/-- All commands extracted from fenced code blocks of the text. -/
def allBlockCommands (text : String) : List String :=
  (scanBlocks text.toList).flatMap blockCommands

/-- The bare `$ `-prefixed lines of the whole text (the `^\$ (.+)$`
multiline scan): a line starting with `"$ "` followed by at least one
character, stripped, kept when non-empty. -/
def promptLineCommands (text : String) : List String :=
  (splitNl text.toList).filterMap fun line =>
    if ['$', ' '].isPrefixOf line && !(line.drop 2).isEmpty then
      let c := trimChars (line.drop 2)
      if c.isEmpty then none else some c.asString
    else none

/-- `_suggest_allowlist_pattern`: derive an allowlist pattern from a
command (subcommand tools keep the first argument, simple commands keep
the bare executable, `rm` with an explicit `-i` keeps the flag,
otherwise executable plus first argument when present). -/
def suggestPattern (cmd0 : String) : String :=
  let cmd := strTrim cmd0
  match (tokensOf cmd).map List.asString with
  | [] => cmd
  | [base] =>
    if ["ls", "cat", "echo", "pwd", "cd"].contains base then base
    else if base = "rm" && containsSub "-i" cmd then "rm -i"
    else base
  | base :: arg :: _ =>
    if ["git", "docker", "npm", "pip", "cargo", "go"].contains base then
      base ++ " " ++ arg
    else if ["ls", "cat", "echo", "pwd", "cd"].contains base then base
    else if base = "rm" && containsSub "-i" cmd then "rm -i"
    else base ++ " " ++ arg

/-- Build the entry for a freshly extracted command (explanation is
filled in by a later pass). -/
def mkEntry (cmd : String) : CommandEntry :=
  ⟨cmd, "", suggestPattern cmd⟩

/-- The `$ `-line pass: append each prompt command unless an entry with
the exact same command string is already present. -/
def addPromptCommands (acc : List CommandEntry) : List String → List CommandEntry
  | [] => acc
  | c :: cs =>
    if acc.any (fun e => e.command = c) then addPromptCommands acc cs
    else addPromptCommands (acc ++ [mkEntry c]) cs

/-- The explanation pass for one entry: find the command's first
occurrence in the response, take up to 200 characters before it, keep
the last line, strip markdown emphasis characters and truncate to 100
characters.  A command at the very start keeps an empty explanation. -/
def setExplanation (text : String) (e : CommandEntry) : CommandEntry :=
  match splitFirst e.command.toList text.toList with
  | none => e
  | some (pre, _) =>
    let idx := pre.length
    if idx = 0 then e
    else
      let context := trimChars ((text.toList.take idx).drop (idx - 200))
      let lastLine := trimChars ((splitNl context).getLastD [])
      let cleaned := lastLine.filter (fun c => !("*_`".toList.contains c))
      { e with explanation := (cleaned.take 100).asString }

/-- `extract_commands`: code-block commands (in order, one entry per
occurrence), then deduplicated `$ `-line commands, then the explanation
pass. -/
def extract_commands (text : String) : List CommandEntry :=
  let blockEntries := (allBlockCommands text).map mkEntry
  let withPrompts := addPromptCommands blockEntries (promptLineCommands text)
  withPrompts.map (setExplanation text)

/-! ## Conversation state machine (`wtf/conversation/state.py`) -/

/-- The states of the wtf conversation flow. -/
inductive ConversationState
  | INITIALIZING
  | QUERYING_AI
  | STREAMING_RESPONSE
  | AWAITING_PERMISSION
  | EXECUTING_COMMAND
  | PROCESSING_OUTPUT
  | RESPONDING
  | COMPLETE
  | ERROR
deriving DecidableEq, Repr

/-- The per-turn mutable context (`ConversationContext`).  The gathered
environment snapshot fields are opaque strings here. -/
structure ConversationContext where
  user_query : String
  cwd : String := ""
  ai_response : String := ""
  commands_to_run : List CommandEntry := []
  current_command_index : Nat := 0
  command_outputs : List String := []
  allowlist : List String := []
  denylist : List String := []
deriving DecidableEq, Repr

/-- A `ConversationStateMachine` value: current state, context and the
recorded exception message, if any. -/
structure Machine where
  state : ConversationState
  context : ConversationContext
  error : Option String := none
deriving DecidableEq, Repr

/-- `_execute_current_state`: execute the logic of the current state and
transition.  The permission check of `AWAITING_PERMISSION` "happens
externally" in the source and does not influence the transition; the
method does nothing when the state is `COMPLETE` (no branch matches). -/
def executeCurrentState (m : Machine) : Machine :=
  match m.state with
  | .INITIALIZING => { m with state := .QUERYING_AI }
  | .QUERYING_AI => { m with state := .STREAMING_RESPONSE }
  | .STREAMING_RESPONSE =>
    if m.context.commands_to_run ≠ [] ∧
        m.context.current_command_index < m.context.commands_to_run.length then
      { m with state := .AWAITING_PERMISSION }
    else
      { m with state := .RESPONDING }
  | .AWAITING_PERMISSION => { m with state := .EXECUTING_COMMAND }
  | .EXECUTING_COMMAND =>
    let ctx := { m.context with
      current_command_index := m.context.current_command_index + 1 }
    if ctx.current_command_index < ctx.commands_to_run.length then
      { m with state := .AWAITING_PERMISSION, context := ctx }
    else
      { m with state := .RESPONDING, context := ctx }
  | .PROCESSING_OUTPUT => { m with state := .QUERYING_AI }
  | .RESPONDING => { m with state := .COMPLETE }
  | .ERROR => { m with state := .COMPLETE }
  | .COMPLETE => m

/-- `transition_to`: manually set the state. -/
def transition_to (m : Machine) (s : ConversationState) : Machine :=
  { m with state := s }

/-- `is_complete`: true iff the state is `COMPLETE` or `ERROR`. -/
def is_complete (m : Machine) : Bool :=
  m.state = .COMPLETE || m.state = .ERROR

/-- `_handle_error`: format the recorded exception. -/
def handleError (m : Machine) : String :=
  match m.error with
  | some e => "Error: " ++ e
  | none => "Unknown error occurred"

/-- The `run()` loop, parameterised over the step body so a Python
exception inside `_execute_current_state` can be modelled (`.error e`
is a raised exception with message `e`).  On an exception the loop
stores the error, moves to `ERROR` and returns `_handle_error()`;
otherwise it loops until `COMPLETE` and returns the accumulated AI
response.  `fuel` bounds the number of iterations; `none` means the
fuel ran out with the loop still running. -/
def runLoop (step : Machine → Except String Machine) :
    Nat → Machine → Option (String × Machine)
  | 0, _ => none
  | fuel + 1, m =>
    if m.state = ConversationState.COMPLETE then some (m.context.ai_response, m)
    else
      match step m with
      | .ok m' => runLoop step fuel m'
      | .error e =>
        let m' := { m with state := ConversationState.ERROR, error := some e }
        some (handleError m', m')

/-- The pure step of the source's `_execute_current_state`, which raises
no exception on any of its branches. -/
def pureStep (m : Machine) : Except String Machine :=
  .ok (executeCurrentState m)

/-! ## Agent tools (`wtf/ai/tools.py`)

Each tool returns a Python dict; dicts are embedded as association
lists of `Value`s.  External effects (subprocess execution, filesystem
queries, persisted config, network calls) are oracle inputs: an
environment record per tool carries the outcome of every external
interaction, including a `raised` field for an exception thrown inside
the tool's `try` block, and the embedded tool computes the same dict
the Python code builds from those outcomes.  Payloads that the tool
merely forwards (file contents, directory entries, parsed
package-manager output) appear as oracle fields as well; every return
site of the source is represented by exactly one branch.
-/

/-- A Python dict value. -/
inductive Value
  | str (s : String)
  | int (n : Int)
  | bool (b : Bool)
  | strList (ss : List String)
  | none
deriving DecidableEq, Repr

/-- A Python dict with string keys. -/
abbrev Dict := List (String × Value)

/-- A Python `None`-or-string turned into a dict value. -/
def optStr : Option String → Value
  | some s => .str s
  | Option.none => .none

/-- Python truthiness of an optional string (`None` and `""` are
falsy). -/
def pyTruthy : Option String → Bool
  | some s => s ≠ ""
  | Option.none => false

/-- Outcome of `subprocess.run(command, shell=True, capture_output=True,
text=True, timeout=...)`: normal completion, `TimeoutExpired`, or any
other exception. -/
inductive ExecOutcome
  | completed (stdout stderr : String) (returncode : Int)
  | timedOut
  | raised (msg : String)

/-- `run_command`: execute a terminal command with a 30 second timeout
and return its output; every branch, including timeout and exception,
returns a structured dict with `should_print=True`. -/
def run_command (exec : String → Nat → ExecOutcome) (command : String) : Dict :=
  match exec command 30 with
  | .completed out err code =>
    let output := if err ≠ "" then out ++ "\n" ++ err else out
    [("output", .str (if output = "" then "(no output)" else output)),
     ("exit_code", .int code),
     ("should_print", .bool true)]
  | .timedOut =>
    [("output", .str "Command timed out after 30 seconds"),
     ("exit_code", .int 124),
     ("should_print", .bool true)]
  | .raised e =>
    [("output", .str ("Error executing command: " ++ e)),
     ("exit_code", .int 1),
     ("should_print", .bool true)]

/-- Oracle for `read_file`: filesystem facts and the
`check_file_permission` result. -/
structure ReadFileEnv where
  raised : Option String := Option.none
  fileExists : Bool := true
  isFile : Bool := true
  permission : String := "allow"
  content : String := ""

/-- `read_file`: read a file, honouring the sensitive-file permission
check; internal tool. -/
def read_file (env : ReadFileEnv) (file_path : String) : Dict :=
  match env.raised with
  | some e =>
    [("content", .none), ("error", .str ("Error reading file: " ++ e)),
     ("should_print", .bool false)]
  | Option.none =>
    if !env.fileExists then
      [("content", .none), ("error", .str ("File not found: " ++ file_path)),
       ("should_print", .bool false)]
    else if !env.isFile then
      [("content", .none), ("error", .str ("Not a file: " ++ file_path)),
       ("should_print", .bool false)]
    else if env.permission = "block" then
      [("content", .none),
       ("error", .str ("Access denied: This file type is blocked for security reasons: " ++ file_path)),
       ("should_print", .bool false)]
    else if env.permission = "ask" then
      [("content", .none), ("error", .none), ("requires_permission", .bool true),
       ("should_print", .bool false),
       ("message", .str ("This file may contain sensitive data: " ++ file_path))]
    else
      [("content", .str env.content), ("error", .none), ("should_print", .bool false)]

/-- Oracle for `grep`: the subprocess stdout. -/
structure GrepEnv where
  raised : Option String := Option.none
  stdout : String := ""

/-- `grep`: search via the `grep -r` subprocess; internal tool. -/
def grep (env : GrepEnv) (pattern path file_pattern : String) : Dict :=
  match env.raised with
  | some e =>
    [("matches", .strList []), ("count", .int 0), ("error", .str e),
     ("should_print", .bool false)]
  | Option.none =>
    let ms := if env.stdout = "" then []
      else (splitNl (trimChars env.stdout.toList)).map List.asString
    [("matches", .strList ms), ("count", .int ms.length),
     ("should_print", .bool false)]

/-- Oracle for `glob_files`: the matching regular files. -/
structure GlobEnv where
  raised : Option String := Option.none
  filePaths : List String := []

/-- `glob_files`: find files matching a glob pattern; internal tool. -/
def glob_files (env : GlobEnv) (pattern path : String) : Dict :=
  match env.raised with
  | some e =>
    [("files", .strList []), ("count", .int 0), ("error", .str e),
     ("should_print", .bool false)]
  | Option.none =>
    [("files", .strList env.filePaths), ("count", .int env.filePaths.length),
     ("should_print", .bool false)]

/-- Oracle for `lookup_history`: the stored conversations. -/
structure HistoryEnv where
  raised : Option String := Option.none
  conversations : List String := []

/-- `lookup_history`: recent conversation history; internal tool. -/
def lookup_history (env : HistoryEnv) (limit : Nat) : Dict :=
  match env.raised with
  | some e =>
    [("conversations", .strList []), ("count", .int 0), ("error", .str e),
     ("should_print", .bool false)]
  | Option.none =>
    [("conversations", .strList env.conversations),
     ("count", .int env.conversations.length), ("should_print", .bool false)]

/-- Oracle for `get_config`: the loaded configuration. -/
structure GetConfigEnv where
  raised : Option String := Option.none
  keyValue : Value := .none
  fullConfig : Value := .none

/-- `get_config`: a config value or the full config; internal tool. -/
def get_config (env : GetConfigEnv) (key : Option String) : Dict :=
  match env.raised with
  | some e =>
    [("value", .none), ("error", .str e), ("should_print", .bool false)]
  | Option.none =>
    let v := if pyTruthy key then env.keyValue else env.fullConfig
    [("value", v), ("should_print", .bool false)]

/-- Oracle for `update_config`: whether load/save raised. -/
structure UpdateConfigEnv where
  raised : Option String := Option.none

/-- `update_config`: set a config key; internal tool. -/
def update_config (env : UpdateConfigEnv) (key : String) (value : Value) : Dict :=
  match env.raised with
  | some e =>
    [("success", .bool false), ("error", .str e), ("should_print", .bool false)]
  | Option.none =>
    [("success", .bool true), ("should_print", .bool false)]

/-- Oracle for `wtf_config`: stored API key, setting lookup result, and
the environment of the delegated `update_config` call. -/
structure WtfConfigEnv where
  raised : Option String := Option.none
  apiKeyValue : Option String := Option.none
  settingFound : Bool := true
  settingValue : Value := .none
  updateEnv : UpdateConfigEnv := {}

/-- `wtf_config`: manage API keys and settings; internal tool.  The
`set_setting` action delegates to `update_config`. -/
def wtf_config (env : WtfConfigEnv) (action : String) (key value : Option String) : Dict :=
  match env.raised with
  | some e =>
    [("success", .bool false), ("error", .str e), ("should_print", .bool false)]
  | Option.none =>
    if action = "set_api_key" then
      if !pyTruthy key || !pyTruthy value then
        [("success", .bool false),
         ("error", .str "Both key and value required for set_api_key"),
         ("should_print", .bool false)]
      else
        [("success", .bool true),
         ("message", .str ("Saved " ++ key.getD "" ++ " API key to config")),
         ("should_print", .bool false)]
    else if action = "get_api_key" then
      if !pyTruthy key then
        [("success", .bool false), ("error", .str "Key required for get_api_key"),
         ("should_print", .bool false)]
      else
        [("success", .bool true), ("value", optStr env.apiKeyValue),
         ("message", .str (if pyTruthy env.apiKeyValue
            then "Retrieved " ++ key.getD "" ++ " API key"
            else "No " ++ key.getD "" ++ " API key stored")),
         ("should_print", .bool false)]
    else if action = "set_setting" then
      if !pyTruthy key || value = Option.none then
        [("success", .bool false),
         ("error", .str "Both key and value required for set_setting"),
         ("should_print", .bool false)]
      else
        update_config env.updateEnv (key.getD "") (optStr value)
    else if action = "get_setting" then
      if !pyTruthy key then
        [("success", .bool false), ("error", .str "Key required for get_setting"),
         ("should_print", .bool false)]
      else if !env.settingFound then
        [("success", .bool false), ("value", .none),
         ("message", .str ("Setting " ++ key.getD "" ++ " not found")),
         ("should_print", .bool false)]
      else
        [("success", .bool true), ("value", env.settingValue),
         ("message", .str ("Retrieved " ++ key.getD "" ++ " setting")),
         ("should_print", .bool false)]
    else
      [("success", .bool false), ("error", .str ("Unknown action: " ++ action)),
       ("should_print", .bool false)]

/-- Oracle for `save_user_memory`. -/
structure MemSaveEnv where
  raised : Option String := Option.none

/-- `save_user_memory`: persist one user preference; internal tool. -/
def save_user_memory (env : MemSaveEnv) (key value : String) : Dict :=
  match env.raised with
  | some e =>
    [("success", .bool false), ("error", .str e), ("should_print", .bool false)]
  | Option.none =>
    if key = "" || value = "" then
      [("success", .bool false), ("error", .str "Both key and value required"),
       ("should_print", .bool false)]
    else
      [("success", .bool true),
       ("message", .str ("Saved memory: " ++ key ++ " = " ++ value)),
       ("should_print", .bool false)]

/-- Oracle for `get_user_memories`: the stored memory keys. -/
structure MemGetEnv where
  raised : Option String := Option.none
  memories : List String := []

/-- `get_user_memories`: all saved memories; internal tool. -/
def get_user_memories (env : MemGetEnv) : Dict :=
  match env.raised with
  | some e =>
    [("success", .bool false), ("error", .str e), ("should_print", .bool false)]
  | Option.none =>
    [("success", .bool true), ("memories", .strList env.memories),
     ("count", .int env.memories.length), ("should_print", .bool false)]

/-- Oracle for `delete_user_memory`: the stored memory keys. -/
structure MemDeleteEnv where
  raised : Option String := Option.none
  memoryKeys : List String := []

/-- `delete_user_memory`: delete one memory by key; internal tool. -/
def delete_user_memory (env : MemDeleteEnv) (key : String) : Dict :=
  match env.raised with
  | some e =>
    [("success", .bool false), ("error", .str e), ("should_print", .bool false)]
  | Option.none =>
    if !env.memoryKeys.contains key then
      [("success", .bool false),
       ("error", .str ("Memory '" ++ key ++ "' not found")),
       ("available_keys", .strList env.memoryKeys),
       ("should_print", .bool false)]
    else
      [("success", .bool true), ("message", .str ("Deleted memory: " ++ key)),
       ("should_print", .bool false)]

/-- Oracle for `clear_user_memories`. -/
structure MemClearEnv where
  raised : Option String := Option.none

/-- `clear_user_memories`: delete all memories; internal tool. -/
def clear_user_memories (env : MemClearEnv) : Dict :=
  match env.raised with
  | some e =>
    [("success", .bool false), ("error", .str e), ("should_print", .bool false)]
  | Option.none =>
    [("success", .bool true), ("message", .str "Cleared all memories"),
     ("should_print", .bool false)]

/-- Oracle for `check_command_exists`: the `shutil.which` result. -/
structure WhichEnv where
  raised : Option String := Option.none
  cmdPath : Option String := Option.none

/-- `check_command_exists`: is a command installed; internal tool. -/
def check_command_exists (env : WhichEnv) (command : String) : Dict :=
  match env.raised with
  | some e =>
    [("exists", .bool false), ("path", .none), ("error", .str e),
     ("should_print", .bool false)]
  | Option.none =>
    [("exists", .bool env.cmdPath.isSome), ("path", optStr env.cmdPath),
     ("should_print", .bool false)]

/-- Oracle for `get_file_info`: filesystem metadata. -/
structure FileInfoEnv where
  raised : Option String := Option.none
  fileExists : Bool := true
  isFile : Bool := true
  isDir : Bool := false
  isSymlink : Bool := false
  size : Int := 0
  perms : String := ""
  modified : Int := 0

/-- `get_file_info`: file metadata without contents; internal tool.
The float `st_mtime` payload is carried as an opaque oracle value. -/
def get_file_info (env : FileInfoEnv) (file_path : String) : Dict :=
  match env.raised with
  | some e =>
    [("exists", .bool false), ("error", .str ("Error getting file info: " ++ e)),
     ("should_print", .bool false)]
  | Option.none =>
    if !env.fileExists then
      [("exists", .bool false), ("error", .str ("File not found: " ++ file_path)),
       ("should_print", .bool false)]
    else
      let file_type :=
        if env.isFile then "file"
        else if env.isDir then "directory"
        else if env.isSymlink then "symlink"
        else "other"
      [("exists", .bool true), ("type", .str file_type), ("size", .int env.size),
       ("permissions", .str env.perms), ("modified", .int env.modified),
       ("should_print", .bool false)]

/-- Oracle for `list_directory`: existence and the listable entry
names (entries whose `stat` failed are already skipped). -/
structure ListDirEnv where
  raised : Option String := Option.none
  dirExists : Bool := true
  isDir : Bool := true
  entryNames : List String := []

/-- `list_directory`: list a directory; internal tool.  The per-entry
metadata dicts are abstracted to their names. -/
def list_directory (env : ListDirEnv) (path : String) (pattern : Option String) : Dict :=
  match env.raised with
  | some e =>
    [("entries", .strList []), ("count", .int 0), ("error", .str e),
     ("should_print", .bool false)]
  | Option.none =>
    if !env.dirExists then
      [("entries", .strList []), ("count", .int 0),
       ("error", .str ("Directory not found: " ++ path)),
       ("should_print", .bool false)]
    else if !env.isDir then
      [("entries", .strList []), ("count", .int 0),
       ("error", .str ("Not a directory: " ++ path)),
       ("should_print", .bool false)]
    else
      [("entries", .strList env.entryNames),
       ("count", .int env.entryNames.length), ("should_print", .bool false)]

/-- Oracle for `check_package_installed`: the parsed outcome of the
package-manager subprocess (output parsing abstracted to the oracle). -/
structure PkgEnv where
  raised : Option String := Option.none
  installed : Bool := false
  version : Option String := Option.none

/-- `check_package_installed`: is a package installed; internal tool. -/
def check_package_installed (env : PkgEnv) (package manager : String) : Dict :=
  match env.raised with
  | some e =>
    [("installed", .bool false), ("error", .str e), ("should_print", .bool false)]
  | Option.none =>
    if !(["npm", "pip", "cargo", "gem"].contains manager) then
      [("installed", .bool false),
       ("error", .str ("Unknown package manager: " ++ manager)),
       ("should_print", .bool false)]
    else
      [("installed", .bool env.installed), ("version", optStr env.version),
       ("should_print", .bool false)]

/-- The `## ...` line scan of `get_git_info`: at the first branch line,
extract the text between the first `[` and the following `]` when an
ahead/behind marker is present. -/
def parseAheadBehindLines : List (List Char) → Option String
  | [] => Option.none
  | line :: rest =>
    if (['#', '#'].isPrefixOf line) then
      if containsSubL "[ahead".toList line || containsSubL "[behind".toList line then
        if containsSubL ['['] line then
          let seg := ((splitPredL (fun c => c = '[') line).getD 1 [])
          some ((splitPredL (fun c => c = ']') seg).getD 0 []).asString
        else Option.none
      else Option.none
    else parseAheadBehindLines rest

/-- Oracle for `get_git_info`: the outcomes of the four git
subprocesses. -/
structure GitEnv where
  raised : Option String := Option.none
  isRepoRc : Int := 0
  branchStdout : String := ""
  porcelainStdout : String := ""
  branchPorcelainStdout : String := ""

/-- `get_git_info`: structured git repository information; internal
tool. -/
def get_git_info (env : GitEnv) : Dict :=
  match env.raised with
  | some e =>
    [("is_repo", .bool false), ("error", .str e), ("should_print", .bool false)]
  | Option.none =>
    if env.isRepoRc ≠ 0 then
      [("is_repo", .bool false), ("should_print", .bool false)]
    else
      let branch := if strTrim env.branchStdout = "" then "HEAD"
        else strTrim env.branchStdout
      let has_changes := strTrim env.porcelainStdout ≠ ""
      let ab := parseAheadBehindLines (splitNl env.branchPorcelainStdout.toList)
      [("is_repo", .bool true), ("branch", .str branch),
       ("has_changes", .bool has_changes), ("ahead_behind", optStr ab),
       ("status", .str (if has_changes then "modified" else "clean")),
       ("should_print", .bool false)]

/-- One web search result. -/
structure SearchItem where
  title : String
  url : String
  description : String

/-- Outcome of a web-search HTTP request. -/
inductive HttpOutcome
  | ok (items : List SearchItem)
  | httpError (code : Nat) (reason : String)

/-- Oracle for the web-search tools: configured API key, HTTP outcome,
and any other exception. -/
structure SearchEnv where
  raised : Option String := Option.none
  apiKey : Option String := Option.none
  outcome : HttpOutcome := .ok []

/-- The `"\n\n"`-joined `title\nurl\ndescription` rendering of search
results. -/
def formatResults (items : List SearchItem) : String :=
  String.intercalate "\n\n"
    (items.map (fun r => r.title ++ "\n" ++ r.url ++ "\n" ++ r.description))

/-- `brave_search`: web search via the Brave API; internal tool. -/
def brave_search (env : SearchEnv) (query : String) : Dict :=
  match env.raised with
  | some e =>
    [("results", .none), ("error", .str ("Brave search failed: " ++ e)),
     ("should_print", .bool false)]
  | Option.none =>
    if !pyTruthy env.apiKey then
      [("results", .none),
       ("error", .str "Brave Search API key not configured. Get a free key at https://brave.com/search/api/ then save it with: wtf here is my brave search api key YOUR_KEY"),
       ("should_print", .bool false)]
    else
      match env.outcome with
      | .httpError code reason =>
        if code = 401 then
          [("results", .none),
           ("error", .str "Brave Search API key is invalid. Check your key at https://brave.com/search/api/"),
           ("should_print", .bool false)]
        else
          [("results", .none),
           ("error", .str ("Brave Search API error: " ++ toString code ++ " " ++ reason)),
           ("should_print", .bool false)]
      | .ok items =>
        let results := items.take 5
        if results.isEmpty then
          [("results", .str "No results found"), ("should_print", .bool false)]
        else
          [("results", .str (formatResults results)), ("should_print", .bool false)]

/-- `serper_search`: web search via the Serper API; internal tool. -/
def serper_search (env : SearchEnv) (query : String) : Dict :=
  match env.raised with
  | some e =>
    [("results", .none), ("error", .str ("Serper search failed: " ++ e)),
     ("should_print", .bool false)]
  | Option.none =>
    if !pyTruthy env.apiKey then
      [("results", .none),
       ("error", .str "Serper API key not configured. Get a free key at https://serper.dev then save it with: wtf here is my serper api key YOUR_KEY"),
       ("should_print", .bool false)]
    else
      match env.outcome with
      | .httpError code reason =>
        if code = 401 || code = 403 then
          [("results", .none),
           ("error", .str "Serper API key is invalid. Check your key at https://serper.dev"),
           ("should_print", .bool false)]
        else
          [("results", .none),
           ("error", .str ("Serper API error: " ++ toString code ++ " " ++ reason)),
           ("should_print", .bool false)]
      | .ok items =>
        let results := items.take 5
        if results.isEmpty then
          [("results", .str "No results found"), ("should_print", .bool false)]
        else
          [("results", .str (formatResults results)), ("should_print", .bool false)]

/-- `bing_search`: web search via the Bing API; internal tool. -/
def bing_search (env : SearchEnv) (query : String) : Dict :=
  match env.raised with
  | some e =>
    [("results", .none), ("error", .str ("Bing search failed: " ++ e)),
     ("should_print", .bool false)]
  | Option.none =>
    if !pyTruthy env.apiKey then
      [("results", .none),
       ("error", .str "Bing Search API key not configured. Get a key from Azure Portal then save it with: wtf here is my bing search api key YOUR_KEY"),
       ("should_print", .bool false)]
    else
      match env.outcome with
      | .httpError code reason =>
        if code = 401 || code = 403 then
          [("results", .none),
           ("error", .str "Bing Search API key is invalid. Check your key in Azure Portal"),
           ("should_print", .bool false)]
        else
          [("results", .none),
           ("error", .str ("Bing Search API error: " ++ toString code ++ " " ++ reason)),
           ("should_print", .bool false)]
      | .ok items =>
        let results := items.take 5
        if results.isEmpty then
          [("results", .str "No results found"), ("should_print", .bool false)]
        else
          [("results", .str (formatResults results)), ("should_print", .bool false)]

/-- Oracle for `web_instant_answers`: the DuckDuckGo response payload
(`some t` is a dict topic with its `Text`, `Option.none` a topic that is
skipped). -/
structure DdgEnv where
  raised : Option String := Option.none
  abstract : String := ""
  relatedTopics : List (Option String) := []

/-- `web_instant_answers`: DuckDuckGo instant answers; internal tool. -/
def web_instant_answers (env : DdgEnv) (query : String) : Dict :=
  match env.raised with
  | some e =>
    [("results", .str ("Web search failed: " ++ e)), ("error", .str e),
     ("should_print", .bool false)]
  | Option.none =>
    let results :=
      (if env.abstract ≠ "" then ["Answer: " ++ env.abstract] else []) ++
      ((env.relatedTopics.take 3).filterMap (fun o =>
        match o with
        | some t => if t ≠ "" then some t else Option.none
        | Option.none => Option.none))
    let result_text := if results.isEmpty
      then "No results found. Try being more specific."
      else String.intercalate "\n" results
    [("results", .str result_text), ("should_print", .bool false)]

/-- One invocation of a registered tool: the tool's arguments together
with the oracle for its external interactions. -/
inductive ToolInput
  | runCommandT (exec : String → Nat → ExecOutcome) (command : String)
  | readFileT (env : ReadFileEnv) (file_path : String)
  | grepT (env : GrepEnv) (pattern path file_pattern : String)
  | globFilesT (env : GlobEnv) (pattern path : String)
  | lookupHistoryT (env : HistoryEnv) (limit : Nat)
  | getConfigT (env : GetConfigEnv) (key : Option String)
  | updateConfigT (env : UpdateConfigEnv) (key : String) (value : Value)
  | wtfConfigT (env : WtfConfigEnv) (action : String) (key value : Option String)
  | saveUserMemoryT (env : MemSaveEnv) (key value : String)
  | getUserMemoriesT (env : MemGetEnv)
  | deleteUserMemoryT (env : MemDeleteEnv) (key : String)
  | clearUserMemoriesT (env : MemClearEnv)
  | braveSearchT (env : SearchEnv) (query : String)
  | serperSearchT (env : SearchEnv) (query : String)
  | bingSearchT (env : SearchEnv) (query : String)
  | webInstantAnswersT (env : DdgEnv) (query : String)
  | checkCommandExistsT (env : WhichEnv) (command : String)
  | getFileInfoT (env : FileInfoEnv) (file_path : String)
  | listDirectoryT (env : ListDirEnv) (path : String) (pattern : Option String)
  | checkPackageInstalledT (env : PkgEnv) (package manager : String)
  | getGitInfoT (env : GitEnv)

/-- The registry name of a tool invocation (the `TOOLS` dict keys). -/
def toolName : ToolInput → String
  | .runCommandT .. => "run_command"
  | .readFileT .. => "read_file"
  | .grepT .. => "grep"
  | .globFilesT .. => "glob_files"
  | .lookupHistoryT .. => "lookup_history"
  | .getConfigT .. => "get_config"
  | .updateConfigT .. => "update_config"
  | .wtfConfigT .. => "wtf_config"
  | .saveUserMemoryT .. => "save_user_memory"
  | .getUserMemoriesT .. => "get_user_memories"
  | .deleteUserMemoryT .. => "delete_user_memory"
  | .clearUserMemoriesT .. => "clear_user_memories"
  | .braveSearchT .. => "brave_search"
  | .serperSearchT .. => "serper_search"
  | .bingSearchT .. => "bing_search"
  | .webInstantAnswersT .. => "web_instant_answers"
  | .checkCommandExistsT .. => "check_command_exists"
  | .getFileInfoT .. => "get_file_info"
  | .listDirectoryT .. => "list_directory"
  | .checkPackageInstalledT .. => "check_package_installed"
  | .getGitInfoT .. => "get_git_info"

/-- Dispatch through the tool registry. -/
def callTool : ToolInput → Dict
  | .runCommandT exec command => run_command exec command
  | .readFileT env file_path => read_file env file_path
  | .grepT env pattern path file_pattern => grep env pattern path file_pattern
  | .globFilesT env pattern path => glob_files env pattern path
  | .lookupHistoryT env limit => lookup_history env limit
  | .getConfigT env key => get_config env key
  | .updateConfigT env key value => update_config env key value
  | .wtfConfigT env action key value => wtf_config env action key value
  | .saveUserMemoryT env key value => save_user_memory env key value
  | .getUserMemoriesT env => get_user_memories env
  | .deleteUserMemoryT env key => delete_user_memory env key
  | .clearUserMemoriesT env => clear_user_memories env
  | .braveSearchT env query => brave_search env query
  | .serperSearchT env query => serper_search env query
  | .bingSearchT env query => bing_search env query
  | .webInstantAnswersT env query => web_instant_answers env query
  | .checkCommandExistsT env command => check_command_exists env command
  | .getFileInfoT env file_path => get_file_info env file_path
  | .listDirectoryT env path pattern => list_directory env path pattern
  | .checkPackageInstalledT env package manager =>
    check_package_installed env package manager
  | .getGitInfoT env => get_git_info env

/-- The keys of the `TOOLS` registry, in source order. -/
def TOOLS : List String :=
  ["run_command", "read_file", "grep", "glob_files", "lookup_history",
   "get_config", "update_config", "wtf_config", "save_user_memory",
   "get_user_memories", "delete_user_memory", "clear_user_memories",
   "brave_search", "serper_search", "bing_search", "web_instant_answers",
   "check_command_exists", "get_file_info", "list_directory",
   "check_package_installed", "get_git_info"]

/-! ## Helper lemmas about whitespace tokenisation -/

theorem splitPredL_ne_nil (p : Char → Bool) (l : List Char) :
    splitPredL p l ≠ [] := by
  induction l with
  | nil => simp [splitPredL]
  | cons c cs ih =>
    simp only [splitPredL]
    by_cases h : p c
    · simp [h]
    · simp only [h, if_false]
      rcases hr : splitPredL p cs with _ | ⟨hd, tl⟩
      · simp
      · simp

theorem splitPredL_cons (p : Char → Bool) (c : Char) (l : List Char) :
    splitPredL p (c :: l) =
      if p c then [] :: splitPredL p l
      else
        match splitPredL p l with
        | h :: t => (c :: h) :: t
        | [] => [[c]] := rfl

theorem splitPredL_append (p : Char → Bool) (sep : Char) (l₁ l₂ : List Char)
    (h : p sep = true) :
    splitPredL p (l₁ ++ sep :: l₂) = splitPredL p l₁ ++ splitPredL p l₂ := by
  induction l₁ with
  | nil => simp [splitPredL, splitPredL_cons, h]
  | cons c cs ih =>
    rw [List.cons_append, splitPredL_cons, splitPredL_cons, ih]
    by_cases hc : p c
    · simp [hc]
    · simp only [hc, if_false]
      obtain ⟨hd, tl, heq⟩ := List.exists_cons_of_ne_nil (splitPredL_ne_nil p cs)
      rw [heq]
      simp

theorem splitWsL_cons_ws (c : Char) (l : List Char) (h : wsChar c = true) :
    splitWsL (c :: l) = splitWsL l := by
  simp [splitWsL, splitPredL, h]

theorem splitWsL_append_ws (l : List Char) (c : Char) (h : wsChar c = true) :
    splitWsL (l ++ [c]) = splitWsL l := by
  have hs := splitPredL_append wsChar c l [] h
  simp only [splitWsL, hs, List.filter_append]
  simp [splitPredL]

theorem splitWsL_dropWhile (l : List Char) :
    splitWsL (l.dropWhile wsChar) = splitWsL l := by
  induction l with
  | nil => rfl
  | cons c cs ih =>
    by_cases h : wsChar c
    · rw [List.dropWhile_cons_of_pos (by simpa using h), ih,
        splitWsL_cons_ws c cs h]
    · rw [List.dropWhile_cons_of_neg (by simpa using h)]

theorem splitWsL_append_all_ws (l ws : List Char)
    (h : ∀ c ∈ ws, wsChar c = true) : splitWsL (l ++ ws) = splitWsL l := by
  induction ws generalizing l with
  | nil => simp
  | cons c cs ih =>
    have hsplit : l ++ c :: cs = (l ++ [c]) ++ cs := by simp
    rw [hsplit, ih (l ++ [c]) (fun c' hc' => h c' (List.mem_cons_of_mem _ hc')),
      splitWsL_append_ws l c (h c (List.mem_cons_self _ _))]

theorem splitWsL_trimChars (l : List Char) :
    splitWsL (trimChars l) = splitWsL l := by
  unfold trimChars
  have hdecomp : l.dropWhile wsChar =
      ((l.dropWhile wsChar).reverse.dropWhile wsChar).reverse ++
        ((l.dropWhile wsChar).reverse.takeWhile wsChar).reverse := by
    conv_lhs => rw [← List.reverse_reverse (l.dropWhile wsChar),
      ← List.takeWhile_append_dropWhile (p := wsChar)
        (l := (l.dropWhile wsChar).reverse)]
    rw [List.reverse_append]
  have hws : ∀ c ∈ ((l.dropWhile wsChar).reverse.takeWhile wsChar).reverse,
      wsChar c = true := by
    intro c hc
    rw [List.mem_reverse] at hc
    exact List.mem_takeWhile_imp hc
  calc splitWsL (((l.dropWhile wsChar).reverse.dropWhile wsChar).reverse)
      = splitWsL (((l.dropWhile wsChar).reverse.dropWhile wsChar).reverse ++
          ((l.dropWhile wsChar).reverse.takeWhile wsChar).reverse) :=
        (splitWsL_append_all_ws _ _ hws).symm
    _ = splitWsL (l.dropWhile wsChar) := by rw [← hdecomp]
    _ = splitWsL l := splitWsL_dropWhile l

theorem tokensOf_strTrim (s : String) : tokensOf (strTrim s) = tokensOf s := by
  simpa [tokensOf, strTrim, String.toList] using splitWsL_trimChars s.toList

/-! ## Claims about the permission decision engine -/

/-- Claim C1: for every command whose trimmed text matches a denylist
pattern, `should_auto_execute` returns `deny`, for every allowlist and
config — the denylist check runs first and wins even over an allowlist
match.  (`wtf/core/permissions.py` is modelled from the spec.) -/
theorem c1_denylist_always_wins (cmd : String) (allowlist denylist : List String)
    (config : Config) (h : is_command_denied cmd denylist = true) :
    should_auto_execute cmd allowlist denylist config = Verdict.deny := by
  simp [should_auto_execute, h]

/-- Witness for C1: `rm -rf /` is denied even though the very same
pattern also sits in the allowlist. -/
theorem c1_witness :
    is_command_denied "rm -rf /" ["rm -rf /"] = true ∧
    should_auto_execute "rm -rf /" ["rm -rf /"] ["rm -rf /"] ⟨true⟩ = Verdict.deny :=
  ⟨by decide,
   c1_denylist_always_wins "rm -rf /" ["rm -rf /"] ["rm -rf /"] ⟨true⟩ (by decide)⟩

/-- Claim C3: a chained command (`&&`, `||`, a bare `|`, `;`, backtick
substitution or `$(...)`) is never auto-executed, for every allowlist,
denylist and config, even when each sub-part would be allowlisted or
safe-readonly.  (`wtf/core/permissions.py` is modelled from the spec.) -/
theorem c3_chained_never_auto (cmd : String) (allowlist denylist : List String)
    (config : Config) (h : is_command_chained cmd = true) :
    should_auto_execute cmd allowlist denylist config ≠ Verdict.auto := by
  unfold should_auto_execute
  by_cases hd : is_command_denied cmd denylist
  · simp [hd]
  · simp [hd, h]

/-- Witness for C3: `git status && git add .` is chained, and is not
auto-executed even with both parts allowlisted and the safe-readonly
fast path enabled. -/
theorem c3_witness :
    is_command_chained "git status && git add ." = true ∧
    should_auto_execute "git status && git add ."
      ["git status", "git add ."] [] ⟨true⟩ ≠ Verdict.auto :=
  ⟨by decide,
   c3_chained_never_auto "git status && git add ." ["git status", "git add ."]
     [] ⟨true⟩ (by decide)⟩

/-- Claim C4: `is_command_allowed` (and `is_command_denied`) holds iff
the command's whitespace tokens start with some pattern's tokens —
whole-token word-boundary matching: extra flags after the pattern do not
prevent a match (`git status -v` against allowlist `["git status"]` is
`auto`), while pattern `git commit` does not match `git commitment`.
(`wtf/core/permissions.py` is modelled from the spec.) -/
theorem c4_pattern_matching_characterisation :
    (∀ (cmd : String) (l : List String),
      is_command_allowed cmd l = true ↔
        ∃ p ∈ l, (tokensOf p).isPrefixOf (tokensOf cmd) = true) ∧
    (∀ (cmd : String) (l : List String),
      is_command_denied cmd l = true ↔
        ∃ p ∈ l, (tokensOf p).isPrefixOf (tokensOf cmd) = true) ∧
    is_command_allowed "git status -v" ["git status"] = true ∧
    should_auto_execute "git status -v" ["git status"] [] ⟨true⟩ = Verdict.auto ∧
    is_command_allowed "git commitment" ["git commit"] = false := by
  refine ⟨?_, ?_, by decide, by decide, by decide⟩ <;>
    · intro cmd l
      simp [is_command_allowed, is_command_denied, matchesPattern,
        List.any_eq_true, tokensOf_strTrim]

/-- Witness for C4: the characterisation applied at the allowlist
scenario of the claim. -/
theorem c4_witness :
    ∃ p ∈ ["git status"],
      (tokensOf p).isPrefixOf (tokensOf "git status -v") = true :=
  (c4_pattern_matching_characterisation.1 "git status -v" ["git status"]).mp
    (by decide)

/-- Claim C2 (refuted by the source): `run_command` in
`wtf/ai/tools.py` starts the subprocess unconditionally — it consults no
permission engine, and no branch of it produces a blocked/denied result
(the dict never carries a `blocked` key), even for a command the
persisted denylist (and the spec-modelled engine) would deny.  The
repository's own tests (`tests/test_tools.py`) expect a
`blocked=True` result and no execution for a denied command. -/
theorem c2_run_command_bypasses_permission_engine :
    (∀ (exec : String → Nat → ExecOutcome) (cmd : String),
      (run_command exec cmd).lookup "blocked" = Option.none) ∧
    should_auto_execute "rm -rf /" [] ["rm -rf"] ⟨true⟩ = Verdict.deny ∧
    run_command (fun _ _ => .completed "files removed" "" 0) "rm -rf /" =
      [("output", .str "files removed"), ("exit_code", .int 0),
       ("should_print", .bool true)] := by
  refine ⟨?_, by decide, by decide⟩
  intro exec cmd
  unfold run_command
  cases exec cmd 30 <;> rfl

/-! ## Helper lemmas about the conversation state machine -/

theorem step_awaiting (ctx : ConversationContext) (e : Option String) :
    executeCurrentState ⟨.AWAITING_PERMISSION, ctx, e⟩ =
      ⟨.EXECUTING_COMMAND, ctx, e⟩ := rfl

theorem step_executing_more (ctx : ConversationContext) (e : Option String)
    (h : ctx.current_command_index + 1 < ctx.commands_to_run.length) :
    executeCurrentState ⟨.EXECUTING_COMMAND, ctx, e⟩ =
      ⟨.AWAITING_PERMISSION,
       { ctx with current_command_index := ctx.current_command_index + 1 }, e⟩ := by
  simp only [executeCurrentState]
  rw [if_pos h]

theorem step_executing_done (ctx : ConversationContext) (e : Option String)
    (h : ¬ ctx.current_command_index + 1 < ctx.commands_to_run.length) :
    executeCurrentState ⟨.EXECUTING_COMMAND, ctx, e⟩ =
      ⟨.RESPONDING,
       { ctx with current_command_index := ctx.current_command_index + 1 }, e⟩ := by
  simp only [executeCurrentState]
  rw [if_neg h]

theorem step_streaming_commands (ctx : ConversationContext) (e : Option String)
    (h : ctx.commands_to_run ≠ [] ∧
      ctx.current_command_index < ctx.commands_to_run.length) :
    executeCurrentState ⟨.STREAMING_RESPONSE, ctx, e⟩ =
      ⟨.AWAITING_PERMISSION, ctx, e⟩ := by
  simp only [executeCurrentState]
  rw [if_pos h]

theorem step_streaming_none (ctx : ConversationContext) (e : Option String)
    (h : ¬ (ctx.commands_to_run ≠ [] ∧
      ctx.current_command_index < ctx.commands_to_run.length)) :
    executeCurrentState ⟨.STREAMING_RESPONSE, ctx, e⟩ =
      ⟨.RESPONDING, ctx, e⟩ := by
  simp only [executeCurrentState]
  rw [if_neg h]

/-- From `AWAITING_PERMISSION` with `k > 0` commands left, the machine
reaches `COMPLETE` in exactly `2*k + 1` further steps (k
permission/execution round-trips, then `RESPONDING → COMPLETE`), with
the index landing on the command count. -/
theorem await_run (k : Nat) : ∀ (ctx : ConversationContext) (e : Option String),
    ctx.current_command_index + k = ctx.commands_to_run.length → 0 < k →
    executeCurrentState^[2 * k + 1] ⟨.AWAITING_PERMISSION, ctx, e⟩ =
      ⟨.COMPLETE,
       { ctx with current_command_index := ctx.commands_to_run.length }, e⟩ := by
  induction k with
  | zero => intro ctx e h hk; omega
  | succ j ih =>
    intro ctx e h _
    by_cases hj : 0 < j
    · have hsum : 2 * (j + 1) + 1 = (2 * j + 1) + 2 := by ring
      rw [hsum, Function.iterate_add_apply]
      have h2 :
          executeCurrentState^[2]
            (⟨.AWAITING_PERMISSION, ctx, e⟩ : Machine) =
            ⟨.AWAITING_PERMISSION,
             { ctx with current_command_index := ctx.current_command_index + 1 },
             e⟩ := by
        show executeCurrentState
            (executeCurrentState ⟨.AWAITING_PERMISSION, ctx, e⟩) = _
        rw [step_awaiting, step_executing_more ctx e (by omega)]
      rw [h2, ih _ e (by simp; omega) hj]
    · have hj0 : j = 0 := by omega
      subst hj0
      have h1 : ctx.current_command_index + 1 = ctx.commands_to_run.length := by
        omega
      show executeCurrentState (executeCurrentState
        (executeCurrentState ⟨.AWAITING_PERMISSION, ctx, e⟩)) = _
      rw [step_awaiting, step_executing_done ctx e (by omega), h1]
      rfl

theorem step_index_mono (m : Machine) :
    m.context.current_command_index ≤
      (executeCurrentState m).context.current_command_index := by
  rcases m with ⟨s, ctx, e⟩
  cases s <;> simp only [executeCurrentState] <;> (try split) <;> simp

theorem step_index_le_succ (m : Machine) :
    (executeCurrentState m).context.current_command_index ≤
      m.context.current_command_index + 1 := by
  rcases m with ⟨s, ctx, e⟩
  cases s <;> simp only [executeCurrentState] <;> (try split) <;> simp

/-! ## Claims about the conversation state machine -/

/-- Claim C5: from `INITIALIZING`, a context with `N` commands and a
fresh index reaches `COMPLETE` in the `N` permission/execution
round-trips plus the 4 fixed transitions (`2*N + 4` steps of
`_execute_current_state`; `COMPLETE` is absorbing, so the bound is also
a "within"), the index never decreases in a step, each step increments
it at most once, and the final index is exactly `N` — one increment per
command considered. -/
theorem c5_state_machine_terminates (ctx : ConversationContext)
    (h : ctx.current_command_index = 0) :
    ((executeCurrentState^[2 * ctx.commands_to_run.length + 4]
        ⟨.INITIALIZING, ctx, Option.none⟩).state = .COMPLETE ∧
      (executeCurrentState^[2 * ctx.commands_to_run.length + 4]
        ⟨.INITIALIZING, ctx, Option.none⟩).context.current_command_index =
        ctx.commands_to_run.length) ∧
    (∀ m : Machine, m.context.current_command_index ≤
      (executeCurrentState m).context.current_command_index) ∧
    (∀ m : Machine, (executeCurrentState m).context.current_command_index ≤
      m.context.current_command_index + 1) := by
  refine ⟨?_, step_index_mono, step_index_le_succ⟩
  rcases hN : ctx.commands_to_run.length with _ | n
  · have hnil : ctx.commands_to_run = [] := List.length_eq_zero.mp hN
    have key : executeCurrentState^[2 * 0 + 4]
        (⟨.INITIALIZING, ctx, Option.none⟩ : Machine) =
        ⟨.COMPLETE, ctx, Option.none⟩ := by
      show executeCurrentState (executeCurrentState (executeCurrentState
        (executeCurrentState ⟨.INITIALIZING, ctx, Option.none⟩))) = _
      rw [show executeCurrentState ⟨.INITIALIZING, ctx, Option.none⟩ =
        ⟨.QUERYING_AI, ctx, Option.none⟩ from rfl]
      rw [show executeCurrentState ⟨.QUERYING_AI, ctx, Option.none⟩ =
        ⟨.STREAMING_RESPONSE, ctx, Option.none⟩ from rfl]
      rw [step_streaming_none ctx Option.none (by simp [hnil])]
      rfl
    rw [key]
    exact ⟨rfl, by simp [hN, h]⟩
  · have hpos : 0 < ctx.commands_to_run.length := by omega
    have hne : ctx.commands_to_run ≠ [] := by
      intro hc; rw [hc] at hN; simp at hN
    have hsum : 2 * ctx.commands_to_run.length + 4 =
        (2 * ctx.commands_to_run.length + 1) + 3 := by ring
    rw [← hN, hsum, Function.iterate_add_apply]
    have h3 : executeCurrentState^[3]
        (⟨.INITIALIZING, ctx, Option.none⟩ : Machine) =
        ⟨.AWAITING_PERMISSION, ctx, Option.none⟩ := by
      show executeCurrentState (executeCurrentState
        (executeCurrentState ⟨.INITIALIZING, ctx, Option.none⟩)) = _
      rw [show executeCurrentState ⟨.INITIALIZING, ctx, Option.none⟩ =
        ⟨.QUERYING_AI, ctx, Option.none⟩ from rfl]
      rw [show executeCurrentState ⟨.QUERYING_AI, ctx, Option.none⟩ =
        ⟨.STREAMING_RESPONSE, ctx, Option.none⟩ from rfl]
      rw [step_streaming_commands ctx Option.none ⟨hne, by omega⟩]
    rw [h3, await_run ctx.commands_to_run.length ctx Option.none
      (by omega) hpos]
    exact ⟨rfl, rfl⟩

/-- Witness for C5: a context with two commands reaches `COMPLETE` after
`2*2 + 4 = 8` steps with the index at 2. -/
theorem c5_witness :
    (executeCurrentState^[8]
      (⟨.INITIALIZING,
        { user_query := "q", commands_to_run := [mkEntry "ls", mkEntry "pwd"] },
        Option.none⟩ : Machine)).state = .COMPLETE ∧
    (executeCurrentState^[8]
      (⟨.INITIALIZING,
        { user_query := "q", commands_to_run := [mkEntry "ls", mkEntry "pwd"] },
        Option.none⟩ : Machine)).context.current_command_index = 2 := by
  have h := (c5_state_machine_terminates
    { user_query := "q", commands_to_run := [mkEntry "ls", mkEntry "pwd"] }
    rfl).1
  exact ⟨h.1, h.2⟩

/-- Claim C6 (refuted by the source): `_execute_current_state` takes no
permission-decision input at all — its comment reads "Permission check
happens externally" — and the `AWAITING_PERMISSION` branch moves
unconditionally to `EXECUTING_COMMAND` with the index unchanged.  So
for a command whose externally resolved decision was deny (or a user
"no"), the machine still visits `EXECUTING_COMMAND` and does not loop
straight back to `AWAITING_PERMISSION`/`RESPONDING`, contradicting the
claim. -/
theorem c6_counterexample :
    (executeCurrentState
      (⟨.AWAITING_PERMISSION,
        { user_query := "q", commands_to_run := [mkEntry "rm -rf /"] },
        Option.none⟩ : Machine)).state = .EXECUTING_COMMAND ∧
    (executeCurrentState
      (⟨.AWAITING_PERMISSION,
        { user_query := "q", commands_to_run := [mkEntry "rm -rf /"] },
        Option.none⟩ : Machine)).state ≠ .AWAITING_PERMISSION ∧
    (executeCurrentState
      (⟨.AWAITING_PERMISSION,
        { user_query := "q", commands_to_run := [mkEntry "rm -rf /"] },
        Option.none⟩ : Machine)).state ≠ .RESPONDING ∧
    (executeCurrentState
      (⟨.AWAITING_PERMISSION,
        { user_query := "q", commands_to_run := [mkEntry "rm -rf /"] },
        Option.none⟩ : Machine)).context.current_command_index = 0 :=
  ⟨rfl, by decide, by decide, rfl⟩

/-- Claim C6 as amended: in the machine as implemented,
`AWAITING_PERMISSION` transitions unconditionally to
`EXECUTING_COMMAND` (the permission decision, resolved externally,
cannot alter the transition), and only the subsequent
`EXECUTING_COMMAND` step advances the index and loops back to
`AWAITING_PERMISSION` (commands remain) or `RESPONDING` (none left);
skipping execution on deny would require the caller to override via
`transition_to`. -/
theorem c6_amended_awaiting_unconditional (m : Machine)
    (h : m.state = .AWAITING_PERMISSION) :
    executeCurrentState m = { m with state := .EXECUTING_COMMAND } ∧
    (executeCurrentState (executeCurrentState m)).context.current_command_index =
      m.context.current_command_index + 1 ∧
    (executeCurrentState (executeCurrentState m)).state =
      (if m.context.current_command_index + 1 < m.context.commands_to_run.length
       then ConversationState.AWAITING_PERMISSION
       else ConversationState.RESPONDING) := by
  rcases m with ⟨s, ctx, e⟩
  subst h
  refine ⟨rfl, ?_, ?_⟩
  · rw [step_awaiting]
    by_cases hc : ctx.current_command_index + 1 < ctx.commands_to_run.length
    · rw [step_executing_more ctx e hc]
    · rw [step_executing_done ctx e hc]
  · rw [step_awaiting]
    by_cases hc : ctx.current_command_index + 1 < ctx.commands_to_run.length
    · rw [step_executing_more ctx e hc, if_pos hc]
    · rw [step_executing_done ctx e hc, if_neg hc]

/-- Witness for the amended C6: with one command and index 0, the
machine goes `AWAITING_PERMISSION → EXECUTING_COMMAND → RESPONDING`. -/
theorem c6_amended_witness :
    (executeCurrentState
      (⟨.AWAITING_PERMISSION, { user_query := "w" }, Option.none⟩ : Machine)).state
      = .EXECUTING_COMMAND ∧
    (executeCurrentState (executeCurrentState
      (⟨.AWAITING_PERMISSION, { user_query := "w" }, Option.none⟩ : Machine))).state
      = .RESPONDING := by
  have h := c6_amended_awaiting_unconditional
    ⟨.AWAITING_PERMISSION, { user_query := "w" }, Option.none⟩ rfl
  refine ⟨by rw [h.1], ?_⟩
  have h3 := h.2.2
  simpa using h3

/-- Claim C10: when `_execute_current_state` raises during `run()`, the
loop catches the exception, records it, moves the machine to `ERROR`
(never `COMPLETE` for that return), and returns `"Error: "` followed by
the message; and `is_complete()` holds exactly in `COMPLETE` and
`ERROR`.  The raising step is modelled by an arbitrary step function
returning `.error e` at the machine state current when the exception
occurs. -/
theorem c10_run_error_handling :
    (∀ (step : Machine → Except String Machine) (m : Machine) (e : String)
        (fuel : Nat),
      m.state ≠ .COMPLETE → step m = .error e →
      runLoop step (fuel + 1) m =
        some ("Error: " ++ e, { m with state := .ERROR, error := some e }) ∧
      ({ m with state := .ERROR, error := some e } : Machine).state ≠
        ConversationState.COMPLETE) ∧
    (∀ m : Machine,
      is_complete m = true ↔ (m.state = .COMPLETE ∨ m.state = .ERROR)) := by
  constructor
  · intro step m e fuel hne hstep
    constructor
    · simp [runLoop, hne, hstep, handleError]
    · simp
  · intro m
    simp [is_complete]

/-- Witness for C10: a step that raises `"boom"` at the initial state
makes `run` return `"Error: boom"` with the machine left in `ERROR`,
which `is_complete` reports as finished. -/
theorem c10_witness :
    runLoop (fun _ => .error "boom") 5
      (⟨.INITIALIZING, { user_query := "q" }, Option.none⟩ : Machine) =
      some ("Error: boom",
        ⟨.ERROR, { user_query := "q" }, some "boom"⟩) ∧
    is_complete (⟨.ERROR, { user_query := "q" }, some "boom"⟩ : Machine) = true := by
  have h := c10_run_error_handling.1 (fun _ => .error "boom")
    ⟨.INITIALIZING, { user_query := "q" }, Option.none⟩ "boom" 4
    (by decide) rfl
  exact ⟨h.1, (c10_run_error_handling.2
    ⟨.ERROR, { user_query := "q" }, some "boom"⟩).mpr (Or.inr rfl)⟩

/-! ## Helper lemmas about the command extractor -/

theorem setExplanation_command (t : String) (e : CommandEntry) :
    (setExplanation t e).command = e.command := by
  unfold setExplanation
  cases hsp : splitFirst e.command.toList t.toList with
  | none => rfl
  | some pp =>
    obtain ⟨pre, post⟩ := pp
    dsimp only
    split <;> rfl

theorem commands_map_setExplanation (t : String) (l : List CommandEntry) :
    (l.map (setExplanation t)).map (fun e => e.command) =
      l.map (fun e => e.command) := by
  induction l with
  | nil => rfl
  | cons a l ih => simp [setExplanation_command, ih]

theorem commands_map_mkEntry (xs : List String) :
    (xs.map mkEntry).map (fun e => e.command) = xs := by
  induction xs with
  | nil => rfl
  | cons a l ih => simp [mkEntry, ih]

/-- The `$ `-line pass never changes the multiplicity of a command that
is already present. -/
theorem addPrompt_mem_count (cs : List String) :
    ∀ (acc : List CommandEntry) (cmd : String),
      cmd ∈ acc.map (fun e => e.command) →
      ((addPromptCommands acc cs).map (fun e => e.command)).count cmd =
        (acc.map (fun e => e.command)).count cmd := by
  induction cs with
  | nil => intro acc cmd _; rfl
  | cons c cs ih =>
    intro acc cmd hmem
    by_cases hany : acc.any (fun e => e.command = c) = true
    · simp only [addPromptCommands]
      rw [if_pos hany]
      exact ih acc cmd hmem
    · simp only [addPromptCommands]
      rw [if_neg hany]
      have hc_ne : c ≠ cmd := by
        intro hEq
        subst hEq
        obtain ⟨e, he, hec⟩ := List.mem_map.mp hmem
        exact hany (List.any_eq_true.mpr ⟨e, he, by simp [hec]⟩)
      have hmem' : cmd ∈ (acc ++ [mkEntry c]).map (fun e => e.command) := by
        simp only [List.map_append]
        exact List.mem_append_left _ hmem
      rw [ih _ cmd hmem']
      simp [List.count_append, mkEntry, List.count_cons, hc_ne, Ne.symm hc_ne]

/-- The `$ `-line pass emits a command that was not already present at
most once. -/
theorem addPrompt_new_count (cs : List String) :
    ∀ (acc : List CommandEntry) (cmd : String),
      cmd ∉ acc.map (fun e => e.command) →
      ((addPromptCommands acc cs).map (fun e => e.command)).count cmd ≤ 1 := by
  induction cs with
  | nil =>
    intro acc cmd hnm
    rw [show addPromptCommands acc [] = acc from rfl,
      List.count_eq_zero_of_not_mem hnm]
    omega
  | cons c cs ih =>
    intro acc cmd hnm
    by_cases hany : acc.any (fun e => e.command = c) = true
    · simp only [addPromptCommands]
      rw [if_pos hany]
      exact ih acc cmd hnm
    · simp only [addPromptCommands]
      rw [if_neg hany]
      by_cases hc : c = cmd
      · subst hc
        have hmem : c ∈ (acc ++ [mkEntry c]).map (fun e => e.command) := by
          simp [mkEntry]
        rw [addPrompt_mem_count cs _ c hmem]
        simp [List.count_append, mkEntry,
          List.count_eq_zero_of_not_mem hnm]
      · refine ih _ cmd ?_
        simp only [List.map_append, List.mem_append]
        rintro (hL | hR)
        · exact hnm hL
        · simp [mkEntry] at hR
          exact hc hR.symm

/-! ## Claims about the command extractor -/

/-- Claim C7 (refuted by the source): deduplication happens only in the
`$ `-line pass (`if not any(c['command'] == cmd for c in commands)`);
the code-block pass appends one entry per occurrence with no check, so
a command present in two fenced blocks is emitted twice and the list is
not duplicate-free. -/
theorem c7_counterexample :
    (extract_commands "```bash\ngit status\n```\n```bash\ngit status\n```").map
        (fun e => e.command) = ["git status", "git status"] ∧
    ¬ (((extract_commands
          "```bash\ngit status\n```\n```bash\ngit status\n```").map
        (fun e => e.command)).count "git status" ≤ 1) :=
  ⟨by decide, by decide⟩

/-- Claim C7 as amended: only the bare `$ `-line pass deduplicates —
against every entry extracted so far, first occurrence winning — so a
command already extracted from a fenced block keeps its multiplicity
(in particular, a command in both a block and a `$ ` line is emitted
exactly once when the block mentions it once), and a command appearing
only on `$ ` lines is emitted at most once; commands repeated inside or
across fenced blocks are emitted once per occurrence. -/
theorem c7_amended_prompt_dedup :
    (∀ (text cmd : String),
      (cmd ∈ allBlockCommands text →
        ((extract_commands text).map (fun e => e.command)).count cmd =
          (allBlockCommands text).count cmd) ∧
      (cmd ∉ allBlockCommands text →
        ((extract_commands text).map (fun e => e.command)).count cmd ≤ 1)) ∧
    (extract_commands "```bash\ngit status\n```\nThen run:\n$ git status").map
        (fun e => e.command) = ["git status"] := by
  refine ⟨?_, by decide⟩
  intro text cmd
  have hmap : (extract_commands text).map (fun e => e.command) =
      (addPromptCommands ((allBlockCommands text).map mkEntry)
        (promptLineCommands text)).map (fun e => e.command) := by
    simp only [extract_commands]
    exact commands_map_setExplanation text _
  constructor
  · intro hmem
    rw [hmap, addPrompt_mem_count _ _ cmd
      (by rw [commands_map_mkEntry]; exact hmem), commands_map_mkEntry]
  · intro hnm
    rw [hmap]
    exact addPrompt_new_count _ _ cmd
      (by rw [commands_map_mkEntry]; exact hnm)

/-- Witness for the amended C7: `ls` sits in a fenced block and on a
`$ ` line; the extractor's count equals the block count (one). -/
theorem c7_witness :
    ((extract_commands "```bash\nls\n```\n$ ls").map
        (fun e => e.command)).count "ls" =
      (allBlockCommands "```bash\nls\n```\n$ ls").count "ls" :=
  (c7_amended_prompt_dedup.1 "```bash\nls\n```\n$ ls" "ls").1 (by decide)

/-! ## Claims about the tools -/

/-- Claim C8: `run_command` returns a structured dict on every outcome
of the subprocess — normal exit, timeout, or a raised exception — and a
timeout (of the fixed 30-second limit it passes to the executor) yields
the sentinel exit code 124 with an output noting the timeout. -/
theorem c8_run_command_timeout_sentinel
    (exec : String → Nat → ExecOutcome) (cmd : String) :
    ((run_command exec cmd).lookup "output" ≠ Option.none ∧
     (run_command exec cmd).lookup "exit_code" ≠ Option.none ∧
     (run_command exec cmd).lookup "should_print" = some (.bool true)) ∧
    (exec cmd 30 = .timedOut →
      run_command exec cmd =
        [("output", .str "Command timed out after 30 seconds"),
         ("exit_code", .int 124),
         ("should_print", .bool true)]) := by
  constructor
  · cases hx : exec cmd 30 <;>
      refine ⟨?_, ?_, ?_⟩ <;>
        simp [run_command, hx, List.lookup]
  · intro ht
    simp [run_command, ht]

/-- Witness for C8: a timed-out `sleep 60` is recorded with exit code
124 and the timeout message. -/
theorem c8_witness :
    run_command (fun _ _ => ExecOutcome.timedOut) "sleep 60" =
      [("output", .str "Command timed out after 30 seconds"),
       ("exit_code", .int 124),
       ("should_print", .bool true)] :=
  (c8_run_command_timeout_sentinel (fun _ _ => ExecOutcome.timedOut)
    "sleep 60").2 rfl

theorem sp_run_command (exec : String → Nat → ExecOutcome) (command : String) :
    (run_command exec command).lookup "should_print" = some (.bool true) := by
  unfold run_command
  cases exec command 30 <;> rfl

theorem sp_read_file (env : ReadFileEnv) (fp : String) :
    (read_file env fp).lookup "should_print" = some (.bool false) := by
  unfold read_file
  cases env.raised
  · split_ifs <;> rfl
  · rfl

theorem sp_grep (env : GrepEnv) (pattern path fp : String) :
    (grep env pattern path fp).lookup "should_print" = some (.bool false) := by
  unfold grep
  cases env.raised <;> rfl

theorem sp_glob_files (env : GlobEnv) (pattern path : String) :
    (glob_files env pattern path).lookup "should_print" = some (.bool false) := by
  unfold glob_files
  cases env.raised <;> rfl

theorem sp_lookup_history (env : HistoryEnv) (limit : Nat) :
    (lookup_history env limit).lookup "should_print" = some (.bool false) := by
  unfold lookup_history
  cases env.raised <;> rfl

theorem sp_get_config (env : GetConfigEnv) (key : Option String) :
    (get_config env key).lookup "should_print" = some (.bool false) := by
  unfold get_config
  cases env.raised <;> rfl

theorem sp_update_config (env : UpdateConfigEnv) (key : String) (value : Value) :
    (update_config env key value).lookup "should_print" = some (.bool false) := by
  unfold update_config
  cases env.raised <;> rfl

theorem sp_wtf_config (env : WtfConfigEnv) (action : String)
    (key value : Option String) :
    (wtf_config env action key value).lookup "should_print" =
      some (.bool false) := by
  unfold wtf_config
  cases env.raised
  · split_ifs <;> first
      | rfl
      | exact sp_update_config env.updateEnv (key.getD "") (optStr value)
  · rfl

theorem sp_save_user_memory (env : MemSaveEnv) (key value : String) :
    (save_user_memory env key value).lookup "should_print" =
      some (.bool false) := by
  unfold save_user_memory
  cases env.raised
  · split_ifs <;> rfl
  · rfl

theorem sp_get_user_memories (env : MemGetEnv) :
    (get_user_memories env).lookup "should_print" = some (.bool false) := by
  unfold get_user_memories
  cases env.raised <;> rfl

theorem sp_delete_user_memory (env : MemDeleteEnv) (key : String) :
    (delete_user_memory env key).lookup "should_print" = some (.bool false) := by
  unfold delete_user_memory
  cases env.raised
  · split_ifs <;> rfl
  · rfl

theorem sp_clear_user_memories (env : MemClearEnv) :
    (clear_user_memories env).lookup "should_print" = some (.bool false) := by
  unfold clear_user_memories
  cases env.raised <;> rfl

theorem sp_check_command_exists (env : WhichEnv) (command : String) :
    (check_command_exists env command).lookup "should_print" =
      some (.bool false) := by
  unfold check_command_exists
  cases env.raised <;> rfl

theorem sp_get_file_info (env : FileInfoEnv) (fp : String) :
    (get_file_info env fp).lookup "should_print" = some (.bool false) := by
  unfold get_file_info
  cases env.raised
  · split_ifs <;> rfl
  · rfl

theorem sp_list_directory (env : ListDirEnv) (path : String)
    (pattern : Option String) :
    (list_directory env path pattern).lookup "should_print" =
      some (.bool false) := by
  unfold list_directory
  cases env.raised
  · split_ifs <;> rfl
  · rfl

theorem sp_check_package_installed (env : PkgEnv) (package manager : String) :
    (check_package_installed env package manager).lookup "should_print" =
      some (.bool false) := by
  unfold check_package_installed
  cases env.raised
  · split_ifs <;> rfl
  · rfl

theorem sp_get_git_info (env : GitEnv) :
    (get_git_info env).lookup "should_print" = some (.bool false) := by
  unfold get_git_info
  cases env.raised
  · split_ifs <;> rfl
  · rfl

theorem sp_brave_search (env : SearchEnv) (query : String) :
    (brave_search env query).lookup "should_print" = some (.bool false) := by
  unfold brave_search
  cases env.raised
  · cases env.outcome <;> dsimp only <;> split_ifs <;> rfl
  · rfl

theorem sp_serper_search (env : SearchEnv) (query : String) :
    (serper_search env query).lookup "should_print" = some (.bool false) := by
  unfold serper_search
  cases env.raised
  · cases env.outcome <;> dsimp only <;> split_ifs <;> rfl
  · rfl

theorem sp_bing_search (env : SearchEnv) (query : String) :
    (bing_search env query).lookup "should_print" = some (.bool false) := by
  unfold bing_search
  cases env.raised
  · cases env.outcome <;> dsimp only <;> split_ifs <;> rfl
  · rfl

theorem sp_web_instant_answers (env : DdgEnv) (query : String) :
    (web_instant_answers env query).lookup "should_print" =
      some (.bool false) := by
  unfold web_instant_answers
  cases env.raised
  · split_ifs <;> rfl
  · rfl

/-- Claim C9: every branch of `run_command` yields `should_print=True`,
and every branch of every other tool registered in `TOOLS` yields
`should_print=False` — the dispatched result's flag is `true` exactly
for the `run_command` registry entry. -/
theorem c9_should_print_discipline (i : ToolInput) :
    (callTool i).lookup "should_print" =
      some (.bool (toolName i == "run_command")) ∧
    toolName i ∈ TOOLS := by
  cases i with
  | runCommandT exec command =>
    exact ⟨sp_run_command exec command, (by decide : "run_command" ∈ TOOLS)⟩
  | readFileT env fp => exact ⟨sp_read_file env fp, (by decide : "read_file" ∈ TOOLS)⟩
  | grepT env pattern path fp => exact ⟨sp_grep env pattern path fp, (by decide : "grep" ∈ TOOLS)⟩
  | globFilesT env pattern path =>
    exact ⟨sp_glob_files env pattern path, (by decide : "glob_files" ∈ TOOLS)⟩
  | lookupHistoryT env limit => exact ⟨sp_lookup_history env limit, (by decide : "lookup_history" ∈ TOOLS)⟩
  | getConfigT env key => exact ⟨sp_get_config env key, (by decide : "get_config" ∈ TOOLS)⟩
  | updateConfigT env key value =>
    exact ⟨sp_update_config env key value, (by decide : "update_config" ∈ TOOLS)⟩
  | wtfConfigT env action key value =>
    exact ⟨sp_wtf_config env action key value, (by decide : "wtf_config" ∈ TOOLS)⟩
  | saveUserMemoryT env key value =>
    exact ⟨sp_save_user_memory env key value, (by decide : "save_user_memory" ∈ TOOLS)⟩
  | getUserMemoriesT env => exact ⟨sp_get_user_memories env, (by decide : "get_user_memories" ∈ TOOLS)⟩
  | deleteUserMemoryT env key =>
    exact ⟨sp_delete_user_memory env key, (by decide : "delete_user_memory" ∈ TOOLS)⟩
  | clearUserMemoriesT env => exact ⟨sp_clear_user_memories env, (by decide : "clear_user_memories" ∈ TOOLS)⟩
  | braveSearchT env query => exact ⟨sp_brave_search env query, (by decide : "brave_search" ∈ TOOLS)⟩
  | serperSearchT env query => exact ⟨sp_serper_search env query, (by decide : "serper_search" ∈ TOOLS)⟩
  | bingSearchT env query => exact ⟨sp_bing_search env query, (by decide : "bing_search" ∈ TOOLS)⟩
  | webInstantAnswersT env query =>
    exact ⟨sp_web_instant_answers env query, (by decide : "web_instant_answers" ∈ TOOLS)⟩
  | checkCommandExistsT env command =>
    exact ⟨sp_check_command_exists env command, (by decide : "check_command_exists" ∈ TOOLS)⟩
  | getFileInfoT env fp => exact ⟨sp_get_file_info env fp, (by decide : "get_file_info" ∈ TOOLS)⟩
  | listDirectoryT env path pattern =>
    exact ⟨sp_list_directory env path pattern, (by decide : "list_directory" ∈ TOOLS)⟩
  | checkPackageInstalledT env package manager =>
    exact ⟨sp_check_package_installed env package manager, (by decide : "check_package_installed" ∈ TOOLS)⟩
  | getGitInfoT env => exact ⟨sp_get_git_info env, (by decide : "get_git_info" ∈ TOOLS)⟩

end Wtf
